import Mathlib

/-!
Verification of the memory-efficient model loader of the Backdoor AI server
(`src/utils/memory_efficient_model.py`): `load_model_efficiently`,
`get_model_url`, `get_model_metadata` and `predict_intent`.

The Python functions are shallowly embedded as pure Lean functions.  All
collaborators (Dropbox storage backend, HTTP transport, coremltools
deserializer, tempfile layer, preprocessor, clock) are modelled as fields of
an `Env` record; a call that may raise a Python exception is modelled as an
`Except String` value.  The process-wide `model_cache` dict is threaded
explicitly as an association list (newest binding first, mirroring dict
overwrite).  Every run additionally returns a `Trace` counting the calls made
to each collaborator and the temp-file create/delete events, so that
"zero additional I/O" and "deleted exactly once" claims are statable.
-/

namespace MemEff

/-- Result dict of `dropbox_storage.get_model_stream`: the loader reads the
truthiness of `.get('success')` and the presence of the `'download_url'` key
(`download_url = none` models an absent key). -/
structure StreamInfo where
  success : Bool
  download_url : Option String
deriving DecidableEq

/-- Response to `requests.head(url)` in `get_model_metadata`: status code plus
the four headers the probe reads. -/
structure HeadResp where
  status_code : Nat
  content_type : String
  content_length : Nat
  last_modified : String
  etag : String
deriving DecidableEq

/-- Response to `requests.get(url, stream=True)`: status code, the
`content-length` header, and the byte sizes of the chunks that
`iter_content(chunk_size=1024*1024)` yields. -/
structure GetResp where
  status_code : Nat
  content_length : Nat
  chunks : List Nat
deriving DecidableEq

/-- A probability value of a prediction output.  The loader never inspects the
numeric values, only passes them through, so they are modelled as `Int`. -/
inductive Probs where
  /-- `isinstance(probs, dict)` holds. -/
  | pdict (m : List (String × Int))
  /-- `isinstance(probs, list)` holds. -/
  | plist (l : List Int)
  /-- neither a dict nor a list. -/
  | other
deriving DecidableEq

/-- Output of `model.predict({'text': ...})` as `predict_intent` inspects it:
either not a dict, or a dict whose `'intent'` key (absent = `none`) and
`'probabilities'` key (absent = `none`) are read. -/
inductive Prediction where
  | notDict
  | pdict (intent : Option String) (probabilities : Option Probs)
deriving DecidableEq

/-- The `'intent'` value of a prediction output, `none` when the output is not
a dict or lacks the key. -/
def Prediction.intentVal : Prediction → Option String
  | .notDict => none
  | .pdict i _ => i

/-- A CoreML model handle as produced by `ct.models.MLModel`.  Attributes read
via `getattr`/`hasattr` are `Option`s (`none` = attribute absent);
`user_defined_metadata` is a string-keyed dict; `predict` may raise. -/
structure Model where
  short_description : Option String
  license : Option String
  user_defined_metadata : Option (List (String × String))
  hasPredict : Bool
  predict : String → Except String Prediction
  classes : Option (List String)

/-- A metadata dict held in a result or cache entry: empty (`{}`), built from
HTTP headers by `get_model_metadata`, or built from the model handle after a
full load. -/
inductive Metadata where
  | empty
  | fromHeaders (content_type : String) (file_size : Nat) (last_modified : String) (etag : String)
  | fromModel (description : String) (license : String) (version : String)

/-- An entry of the process-wide `model_cache` dict:
`{'model': ..., 'metadata': ..., 'loaded_at': ...}`. -/
structure CacheEntry where
  model : Model
  metadata : Metadata
  loaded_at : Nat

/-- The process-wide `model_cache` dict, as an association list with the
newest binding first (dict assignment = cons; `dict.get` = first match). -/
def Cache := List (String × CacheEntry)

/-- `dict.get` on the cache: first binding for the name, `none` if absent. -/
def cacheGet : Cache → String → Option CacheEntry
  | [], _ => none
  | (k, e) :: rest, n => if n = k then some e else cacheGet rest n

/-- `dict.get` on a string-keyed dict such as `user_defined_metadata`. -/
def assocGet : List (String × String) → String → Option String
  | [], _ => none
  | (k, v) :: rest, n => if n = k then some v else assocGet rest n

/-- The environment of one call: every collaborator the loader touches.
`Except String` results model calls that may raise.  `preprocess` covers
`preprocessor.preprocess_text` with its lowercase `ImportError` fallback as a
single total function; `now`/`elapsed` model `datetime.now()` and
`time.time() - start_time`. -/
structure Env where
  base_model_name : String
  getDropboxStorage : Except String Unit
  getModelStream : String → Option String → Except String (Option StreamInfo)
  headReq : String → Except String HeadResp
  getReq : String → Except String GetResp
  coremlAvailable : Bool
  memoryOnlyMode : Bool
  mlmodelLoad : String → Except String Model
  tempfileCreate : Except String String
  preprocess : String → String
  now : Nat
  elapsed : Nat

/-- Trace of observable effects of one call: number of calls to the storage
backend (`get_model_stream`), HEAD requests, GET requests, deserializer
invocations (`ct.models.MLModel`), disk temp files created and deleted, and
the value of the `downloaded` byte counter (`none` when the code path keeps no
such counter). -/
structure Trace where
  storageCalls : Nat
  headCalls : Nat
  getCalls : Nat
  deserializeCalls : Nat
  tempCreates : Nat
  tempDeletes : Nat
  downloaded : Option Nat
deriving DecidableEq

/-- The all-zero trace: no collaborator call, no temp file, no counter. -/
def Trace.zero : Trace := ⟨0, 0, 0, 0, 0, 0, none⟩

/-- Overwrite the storage-call count of a trace (used to add the resolver's
calls to the download phase's trace, whose own count is zero). -/
def Trace.withStorage (n : Nat) (t : Trace) : Trace :=
  ⟨n, t.headCalls, t.getCalls, t.deserializeCalls, t.tempCreates, t.tempDeletes, t.downloaded⟩

/-- The result dict of `load_model_efficiently`.  The cache-hit return at
lines 47-53 of the source omits the `'errors'`, `'warnings'` and
`'download_url'` keys, so these three fields are `Option`s where `none`
models an absent key; the other five keys are always present. -/
structure LoadResult where
  success : Bool
  model : Option Model
  metadata : Metadata
  errors : Option (List String)
  warnings : Option (List String)
  from_cache : Bool
  load_time : Nat
  download_url : Option String

/-- The result dict built on a cache hit (source lines 47-53): five keys
only, the cached handle and metadata, `from_cache = True`. -/
def cacheHitResult (env : Env) (e : CacheEntry) : LoadResult :=
  ⟨true, some e.model, e.metadata, none, none, true, env.elapsed, none⟩

/-- One folder attempt of `get_model_url`'s loop plus the remaining
iterations: per-iteration exceptions are caught and the loop continues; a
dict with truthy `success` and a `download_url` key returns early.  Also
counts the `get_model_stream` calls made. -/
def try_folders (env : Env) (model_name : String) : List (Option String) → Option String × Nat
  | [] => (none, 0)
  | folder :: rest =>
    match env.getModelStream model_name folder with
    | .error _ =>
      let r := try_folders env model_name rest
      (r.1, r.2 + 1)
    | .ok none =>
      let r := try_folders env model_name rest
      (r.1, r.2 + 1)
    | .ok (some si) =>
      if si.success && si.download_url.isSome then (si.download_url, 1)
      else
        let r := try_folders env model_name rest
        (r.1, r.2 + 1)

/-- `get_model_url` (source lines 211-248): obtain the storage backend (any
exception there is caught and yields `None`), then try the default folder and
the `"base_model"` folder in order.  Returns the URL (or `none`) and the
number of storage-backend calls made. -/
def get_model_url (env : Env) (model_name : String) : Option String × Nat :=
  match env.getDropboxStorage with
  | .error _ => (none, 0)
  | .ok _ => try_folders env model_name [none, some "base_model"]

/-- `get_model_metadata` (source lines 250-279): one HEAD request; an
exception or a non-200 status yields `None`, otherwise a metadata dict from
the four headers.  Also returns the number of HEAD requests made. -/
def get_model_metadata (env : Env) (url : String) : Option Metadata × Nat :=
  match env.headReq url with
  | .error _ => (none, 1)
  | .ok h =>
    if h.status_code = 200 then
      (some (.fromHeaders h.content_type h.content_length h.last_modified h.etag), 1)
    else (none, 1)

/-- The metadata dict extracted from a loaded handle (source lines 179-183):
`getattr` defaults for description and license, `user_defined_metadata`
version defaulting to `"1.0.0"`. -/
def modelMetadata (m : Model) : Metadata :=
  .fromModel (m.short_description.getD "") (m.license.getD "")
    (match m.user_defined_metadata with
     | some kv => (assocGet kv "version").getD "1.0.0"
     | none => "1.0.0")

/-- The `downloaded` byte counter after the streaming loop: each truthy
(non-empty) chunk adds its length. -/
def downloadedBytes (chunks : List Nat) : Nat :=
  (chunks.filter (fun c => c ≠ 0)).sum

/-- Outcome of the inner try block of the full-load path (source lines
96-201): an early `return result` with one error appended (coremltools
missing, non-200 download), a caught exception turned into an
`"Error loading model ..."` message, or a loaded handle. -/
inductive LoadOutcome where
  | earlyErr (msg : String)
  | caughtErr (msg : String)
  | loaded (m : Model)

/-- The download-and-deserialize phase of a full load (source lines 96-201),
for a resolved URL: coremltools availability check, then either the
memory-only branch (virtual temp file, `downloaded` counter) or the disk
branch (temp file created before a try/finally whose finally deletes it on
every exit).  Exceptions from the transport or the deserializer become
`caughtErr`.  Returns the outcome and the trace of this phase. -/
def download_and_load (env : Env) (model_name : String) (model_url : String) :
    LoadOutcome × Trace :=
  if env.coremlAvailable = false then
    (.earlyErr "CoreMLTools not available, cannot load model", Trace.zero)
  else if env.memoryOnlyMode = true then
    match env.getReq model_url with
    | .error e =>
      (.caughtErr ("Error loading model " ++ model_name ++ ": " ++ e),
       ⟨0, 0, 1, 0, 0, 0, none⟩)
    | .ok resp =>
      if resp.status_code = 200 then
        match env.mlmodelLoad model_url with
        | .error e =>
          (.caughtErr ("Error loading model " ++ model_name ++ ": " ++ e),
           ⟨0, 0, 1, 1, 0, 0, some (downloadedBytes resp.chunks)⟩)
        | .ok m =>
          (.loaded m, ⟨0, 0, 1, 1, 0, 0, some (downloadedBytes resp.chunks)⟩)
      else
        (.earlyErr ("Error downloading model: HTTP " ++ toString resp.status_code),
         ⟨0, 0, 1, 0, 0, 0, none⟩)
  else
    match env.tempfileCreate with
    | .error e =>
      (.caughtErr ("Error loading model " ++ model_name ++ ": " ++ e), Trace.zero)
    | .ok _tmp_path =>
      match env.getReq model_url with
      | .error e =>
        (.caughtErr ("Error loading model " ++ model_name ++ ": " ++ e),
         ⟨0, 0, 1, 0, 1, 1, none⟩)
      | .ok resp =>
        if resp.status_code = 200 then
          match env.mlmodelLoad model_url with
          | .error e =>
            (.caughtErr ("Error loading model " ++ model_name ++ ": " ++ e),
             ⟨0, 0, 1, 1, 1, 1, none⟩)
          | .ok m => (.loaded m, ⟨0, 0, 1, 1, 1, 1, none⟩)
        else
          (.earlyErr ("Error downloading model: HTTP " ++ toString resp.status_code),
           ⟨0, 0, 1, 0, 1, 1, none⟩)

/-- The body of `load_model_efficiently` after the cache check (source lines
55-209): resolve the URL, then either the validation-only probe or the full
download/deserialize path; on a full-load success the cache gains a new
binding for the name.  Early returns at source lines 72, 105, 144 and 169
leave `load_time` at its initial `0`. -/
def load_body (env : Env) (cache : Cache) (model_name : String)
    (validation_only : Bool) : LoadResult × Cache × Trace :=
  match (get_model_url env model_name).1 with
  | none =>
    (⟨false, none, .empty,
      some ["Could not get download URL for model " ++ model_name],
      some [], false, 0, none⟩,
     cache, ⟨(get_model_url env model_name).2, 0, 0, 0, 0, 0, none⟩)
  | some url =>
    if validation_only = true then
      match (get_model_metadata env url).1 with
      | some md =>
        (⟨true, none, md, some [], some [], false, env.elapsed, some url⟩,
         cache,
         ⟨(get_model_url env model_name).2, (get_model_metadata env url).2,
          0, 0, 0, 0, none⟩)
      | none =>
        (⟨false, none, .empty,
          some ["Could not validate model " ++ model_name ++ " metadata"],
          some [], false, env.elapsed, some url⟩,
         cache,
         ⟨(get_model_url env model_name).2, (get_model_metadata env url).2,
          0, 0, 0, 0, none⟩)
    else
      match (download_and_load env model_name url).1 with
      | .earlyErr msg =>
        (⟨false, none, .empty, some [msg], some [], false, 0, some url⟩,
         cache,
         Trace.withStorage (get_model_url env model_name).2
           (download_and_load env model_name url).2)
      | .caughtErr msg =>
        (⟨false, none, .empty, some [msg], some [], false, env.elapsed, some url⟩,
         cache,
         Trace.withStorage (get_model_url env model_name).2
           (download_and_load env model_name url).2)
      | .loaded m =>
        (⟨true, some m, modelMetadata m, some [], some [], false, env.elapsed,
          some url⟩,
         (model_name, ⟨m, modelMetadata m, env.now⟩) :: cache,
         Trace.withStorage (get_model_url env model_name).2
           (download_and_load env model_name url).2)

/-- `load_model_efficiently` (source lines 28-209): a non-validation-only
request finding a cache entry returns the cache-hit dict immediately with no
collaborator call; otherwise the body runs.  Returns the result dict, the
cache after the call, and the effect trace. -/
def load_model_efficiently (env : Env) (cache : Cache) (model_name : String)
    (validation_only : Bool) : LoadResult × Cache × Trace :=
  match cacheGet cache model_name with
  | some e =>
    if validation_only = true then load_body env cache model_name true
    else (cacheHitResult env e, cache, Trace.zero)
  | none => load_body env cache model_name validation_only

/-- The result dict of `predict_intent`: always these four keys. -/
structure PredictResult where
  success : Bool
  intent : Option String
  probabilities : List (String × Int)
  errors : List String
deriving DecidableEq

/-- The `'probabilities'` normalization of `predict_intent` (source lines
332-339): a dict is taken as is; a list is zipped with `classes_` when that
attribute exists; anything else leaves the empty dict. -/
def extractProbs (m : Model) (probs : Option Probs) : List (String × Int) :=
  match probs with
  | none => []
  | some (.pdict pm) => pm
  | some (.plist l) =>
    match m.classes with
    | some cs => cs.zip l
    | none => []
  | some .other => []

/-- `predict_intent` (source lines 281-353): resolve the default model name,
load via `load_model_efficiently`, propagate its errors on failure, otherwise
preprocess the text and normalize the handle's prediction output; a handle
without a `predict` attribute or a `None` handle is an unsupported model. -/
def predict_intent (env : Env) (cache : Cache) (text : String)
    (model_name : Option String) : PredictResult × Cache × Trace :=
  let name := model_name.getD env.base_model_name
  let out := load_model_efficiently env cache name false
  let mi := out.1
  if mi.success = false then
    (⟨false, none, [], mi.errors.getD []⟩, out.2.1, out.2.2)
  else
    match mi.model with
    | none =>
      (⟨false, none, [], ["Unsupported model type - no predict method"]⟩,
       out.2.1, out.2.2)
    | some m =>
      if m.hasPredict = true then
        match m.predict (env.preprocess text) with
        | .error e =>
          (⟨false, none, [], ["Error making prediction: " ++ e]⟩, out.2.1, out.2.2)
        | .ok .notDict => (⟨false, none, [], []⟩, out.2.1, out.2.2)
        | .ok (.pdict none _probs) => (⟨false, none, [], []⟩, out.2.1, out.2.2)
        | .ok (.pdict (some i) probs) =>
          (⟨true, some i, extractProbs m probs, []⟩, out.2.1, out.2.2)
      else
        (⟨false, none, [], ["Unsupported model type - no predict method"]⟩,
         out.2.1, out.2.2)

end MemEff

namespace MemEff

/-- Shape of any `load_body` result: either success, or a failure whose
handle is `none` and whose error list is present and non-empty, and in the
failure case the cache is unchanged. -/
theorem load_body_shape (env : Env) (cache : Cache) (model_name : String)
    (validation_only : Bool) :
    ((load_body env cache model_name validation_only).1.success = true) ∨
    ((load_body env cache model_name validation_only).1.model = none ∧
      (load_body env cache model_name validation_only).2.1 = cache ∧
      ∃ es, (load_body env cache model_name validation_only).1.errors = some es ∧
        es ≠ []) := by
  unfold load_body
  split
  · right
    exact ⟨rfl, rfl, _, rfl, by simp⟩
  · split
    · split
      · left; rfl
      · right
        exact ⟨rfl, rfl, _, rfl, by simp⟩
    · split
      · right
        exact ⟨rfl, rfl, _, rfl, by simp⟩
      · right
        exact ⟨rfl, rfl, _, rfl, by simp⟩
      · left; rfl

/-- Shape of any `load_model_efficiently` result: either success, or a
failure with `model = none`, an unchanged cache, and a present non-empty
error list. -/
theorem load_shape (env : Env) (cache : Cache) (model_name : String)
    (validation_only : Bool) :
    ((load_model_efficiently env cache model_name validation_only).1.success = true) ∨
    ((load_model_efficiently env cache model_name validation_only).1.model = none ∧
      (load_model_efficiently env cache model_name validation_only).2.1 = cache ∧
      ∃ es,
        (load_model_efficiently env cache model_name validation_only).1.errors = some es ∧
        es ≠ []) := by
  unfold load_model_efficiently
  split
  · split
    · exact load_body_shape env cache model_name true
    · left; rfl
  · exact load_body_shape env cache model_name validation_only

end MemEff

namespace MemEff

/-- A concrete model handle used by the concrete-input theorems. -/
def m0 : Model :=
  ⟨some "demo model", some "MIT", some [("version", "2.0.0")], true,
   fun _ => .ok (.pdict (some "greeting") none), none⟩

/-- A concrete cache entry holding `m0`. -/
def entry0 : CacheEntry := ⟨m0, .empty, 0⟩

/-- An environment in which every collaborator raises and no library is
available. -/
def envFail : Env :=
  ⟨"model_1.0.0.mlmodel", .error "storage down", fun _ _ => .error "no stream",
   fun _ => .error "no head", fun _ => .error "no get", false, false,
   fun _ => .error "bad artifact", .error "no tempfile", fun s => s, 7, 3⟩

/-- Shape of the cache after `load_body`: unchanged, or (exactly on the
successful full-load path) extended with the one new binding built from the
returned handle. -/
theorem load_body_cache_shape (env : Env) (cache : Cache) (model_name : String)
    (validation_only : Bool) :
    (load_body env cache model_name validation_only).2.1 = cache ∨
    ((load_body env cache model_name validation_only).1.success = true ∧
      ∃ m, (load_body env cache model_name validation_only).1.model = some m ∧
        (load_body env cache model_name validation_only).2.1 =
          (model_name, ⟨m, modelMetadata m, env.now⟩) :: cache) := by
  unfold load_body
  split
  · left; rfl
  · split
    · split
      · left; rfl
      · left; rfl
    · split
      · left; rfl
      · left; rfl
      · right; exact ⟨rfl, _, rfl, rfl⟩

/-- Shape of the cache after `load_model_efficiently`: unchanged, or extended
with the one binding built from the successfully loaded handle. -/
theorem load_cache_shape (env : Env) (cache : Cache) (model_name : String)
    (validation_only : Bool) :
    (load_model_efficiently env cache model_name validation_only).2.1 = cache ∨
    ((load_model_efficiently env cache model_name validation_only).1.success = true ∧
      ∃ m,
        (load_model_efficiently env cache model_name validation_only).1.model = some m ∧
        (load_model_efficiently env cache model_name validation_only).2.1 =
          (model_name, ⟨m, modelMetadata m, env.now⟩) :: cache) := by
  unfold load_model_efficiently
  split
  · split
    · exact load_body_cache_shape env cache model_name true
    · left; rfl
  · exact load_body_cache_shape env cache model_name validation_only

/-- C1: any exception of a collaborator during URL resolution, metadata
probing, download or deserialization is caught inside
`load_model_efficiently` (the embedding is a total function, so no run
raises): whenever the returned dict has `success = False`, its handle is
`None` and its error list is present and non-empty — no partial handle and
no silent failure. -/
theorem load_catches_and_reports_failures (env : Env) (cache : Cache)
    (model_name : String) (validation_only : Bool)
    (h : (load_model_efficiently env cache model_name validation_only).1.success = false) :
    (load_model_efficiently env cache model_name validation_only).1.model = none ∧
    ∃ es,
      (load_model_efficiently env cache model_name validation_only).1.errors = some es ∧
      es ≠ [] := by
  rcases load_shape env cache model_name validation_only with hs | ⟨hm, _, hes⟩
  · rw [h] at hs; exact absurd hs (by simp)
  · exact ⟨hm, hes⟩

/-- Witness for C1 at a concrete input: with every collaborator raising, the
load fails with no handle and a non-empty error list. -/
theorem load_catches_and_reports_failures_witness :
    (load_model_efficiently envFail [] "m" false).1.model = none ∧
    ∃ es, (load_model_efficiently envFail [] "m" false).1.errors = some es ∧
      es ≠ [] :=
  load_catches_and_reports_failures envFail [] "m" false (by rfl)

/-- C2: a run returning `success = False` leaves the cache unchanged, and any
change to the cache is exactly the insertion of the binding built from the
successfully deserialized handle of that run — failed loads never populate
the cache. -/
theorem failed_load_leaves_cache_unchanged (env : Env) (cache : Cache)
    (model_name : String) (validation_only : Bool) :
    ((load_model_efficiently env cache model_name validation_only).1.success = false →
      (load_model_efficiently env cache model_name validation_only).2.1 = cache) ∧
    ((load_model_efficiently env cache model_name validation_only).2.1 = cache ∨
      ((load_model_efficiently env cache model_name validation_only).1.success = true ∧
        ∃ m,
          (load_model_efficiently env cache model_name validation_only).1.model = some m ∧
          (load_model_efficiently env cache model_name validation_only).2.1 =
            (model_name, ⟨m, modelMetadata m, env.now⟩) :: cache)) := by
  refine ⟨fun h => ?_, load_cache_shape env cache model_name validation_only⟩
  rcases load_cache_shape env cache model_name validation_only with hc | ⟨hs, _⟩
  · exact hc
  · rw [h] at hs; exact absurd hs (by simp)

/-- Witness for C2 at a concrete input: the failing load leaves the empty
cache empty. -/
theorem failed_load_leaves_cache_unchanged_witness :
    (load_model_efficiently envFail [] "m" false).2.1 = [] :=
  (failed_load_leaves_cache_unchanged envFail [] "m" false).1 (by rfl)

end MemEff

namespace MemEff

/-- The validation-only body never calls the deserializer and returns the
cache unchanged. -/
theorem load_body_validation (env : Env) (cache : Cache) (model_name : String) :
    (load_body env cache model_name true).2.1 = cache ∧
    (load_body env cache model_name true).2.2.deserializeCalls = 0 := by
  unfold load_body
  split
  · exact ⟨rfl, rfl⟩
  · rw [if_pos rfl]
    split
    · exact ⟨rfl, rfl⟩
    · exact ⟨rfl, rfl⟩

/-- C6: a validation-only call never invokes the deserialization collaborator
and leaves the process-wide cache exactly as it was. -/
theorem validation_only_no_deserialize_no_cache_write (env : Env) (cache : Cache)
    (model_name : String) :
    (load_model_efficiently env cache model_name true).2.1 = cache ∧
    (load_model_efficiently env cache model_name true).2.2.deserializeCalls = 0 := by
  unfold load_model_efficiently
  split
  · rw [if_pos rfl]
    exact load_body_validation env cache model_name
  · exact load_body_validation env cache model_name

/-- Every result built by `load_body` has `from_cache = False` and carries
both the error list and the warning list. -/
theorem load_body_keys (env : Env) (cache : Cache) (model_name : String)
    (validation_only : Bool) :
    (load_body env cache model_name validation_only).1.from_cache = false ∧
    (load_body env cache model_name validation_only).1.errors.isSome = true ∧
    (load_body env cache model_name validation_only).1.warnings.isSome = true := by
  unfold load_body
  split
  · exact ⟨rfl, rfl, rfl⟩
  · split
    · split
      · exact ⟨rfl, rfl, rfl⟩
      · exact ⟨rfl, rfl, rfl⟩
    · split
      · exact ⟨rfl, rfl, rfl⟩
      · exact ⟨rfl, rfl, rfl⟩
      · exact ⟨rfl, rfl, rfl⟩

/-- Counterexample to C4 as stated: on a cache hit the returned dict omits
the `'errors'` and `'warnings'` keys (source lines 47-53 build a five-key
dict), so not every returned value contains all seven LoadResult fields. -/
theorem load_result_seven_fields_counterexample :
    (load_model_efficiently envFail [("m", entry0)] "m" false).1.errors = none ∧
    (load_model_efficiently envFail [("m", entry0)] "m" false).1.warnings = none ∧
    (load_model_efficiently envFail [("m", entry0)] "m" false).1.success = true := by
  exact ⟨rfl, rfl, rfl⟩

/-- C4 as amended: every non-cache-hit result carries all seven fields
(success, handle, metadata, error list, warning list, cache-hit flag and
duration are structure fields; the error and warning lists are present);
a cache-hit result carries five fields, omitting the error and warning
lists, with `success = True` and a present handle; and in every result
`success = False` implies the handle is `None`. -/
theorem load_result_field_presence (env : Env) (cache : Cache)
    (model_name : String) (validation_only : Bool) :
    ((load_model_efficiently env cache model_name validation_only).1.success = false →
      (load_model_efficiently env cache model_name validation_only).1.model = none) ∧
    ((load_model_efficiently env cache model_name validation_only).1.from_cache = false →
      (load_model_efficiently env cache model_name validation_only).1.errors.isSome = true ∧
      (load_model_efficiently env cache model_name validation_only).1.warnings.isSome = true) ∧
    ((load_model_efficiently env cache model_name validation_only).1.from_cache = true →
      (load_model_efficiently env cache model_name validation_only).1.success = true ∧
      (load_model_efficiently env cache model_name validation_only).1.errors = none ∧
      (load_model_efficiently env cache model_name validation_only).1.warnings = none ∧
      (load_model_efficiently env cache model_name validation_only).1.model.isSome = true) := by
  refine ⟨fun h => ?_, ?_, ?_⟩
  · rcases load_shape env cache model_name validation_only with hs | ⟨hm, _, _⟩
    · rw [h] at hs; exact absurd hs (by simp)
    · exact hm
  all_goals
    unfold load_model_efficiently
    split
  case _ e heq =>
    split
    · intro _; exact (load_body_keys env cache model_name true).2
    · intro h; exact absurd h (by simp [cacheHitResult])
  case _ heq =>
    intro _; exact (load_body_keys env cache model_name validation_only).2
  case _ e heq =>
    split
    · intro h
      exact absurd ((load_body_keys env cache model_name true).1.symm.trans h) (by simp)
    · intro _; exact ⟨rfl, rfl, rfl, rfl⟩
  case _ heq =>
    intro h
    exact absurd ((load_body_keys env cache model_name validation_only).1.symm.trans h)
      (by simp)

/-- Witness for C4 (amended) at concrete inputs: a failing load has no
handle and carries both lists; a cache hit omits both lists and has a
handle. -/
theorem load_result_field_presence_witness :
    (load_model_efficiently envFail [] "m" false).1.model = none ∧
    (load_model_efficiently envFail [] "m" false).1.errors.isSome = true ∧
    (load_model_efficiently envFail [("m", entry0)] "m" false).1.errors = none ∧
    (load_model_efficiently envFail [("m", entry0)] "m" false).1.model.isSome = true :=
  ⟨(load_result_field_presence envFail [] "m" false).1 (by rfl),
   ((load_result_field_presence envFail [] "m" false).2.1 (by rfl)).1,
   ((load_result_field_presence envFail [("m", entry0)] "m" false).2.2 (by rfl)).2.1,
   ((load_result_field_presence envFail [("m", entry0)] "m" false).2.2 (by rfl)).2.2.2⟩

end MemEff

namespace MemEff

/-- A successful non-validation-only `load_body` run went through the full
download path: it returns some handle and extends the cache with exactly the
binding built from that handle. -/
theorem load_body_full_success (env : Env) (cache : Cache) (model_name : String)
    (h : (load_body env cache model_name false).1.success = true) :
    ∃ m, (load_body env cache model_name false).1.model = some m ∧
      (load_body env cache model_name false).2.1 =
        (model_name, ⟨m, modelMetadata m, env.now⟩) :: cache := by
  unfold load_body at h ⊢
  cases hu : (get_model_url env model_name).1 with
  | none =>
    simp only [hu] at h
    exact absurd h (by simp)
  | some url =>
    simp only [hu] at h ⊢
    rw [if_neg (by simp)] at h ⊢
    cases hdl : (download_and_load env model_name url).1 with
    | earlyErr msg =>
      simp only [hdl] at h
      exact absurd h (by simp)
    | caughtErr msg =>
      simp only [hdl] at h
      exact absurd h (by simp)
    | loaded m =>
      simp only [hdl]
      exact ⟨m, rfl, rfl⟩

/-- A non-validation-only call finding a cache entry is exactly the cache-hit
return: the cached handle and metadata, the unchanged cache, the zero trace. -/
theorem load_cache_hit_run (env : Env) (cache : Cache) (model_name : String)
    (e : CacheEntry) (hc : cacheGet cache model_name = some e) :
    load_model_efficiently env cache model_name false =
      (cacheHitResult env e, cache, Trace.zero) := by
  unfold load_model_efficiently
  rw [hc]
  rfl

/-- A call finding no cache entry runs the body. -/
theorem load_cache_miss_run (env : Env) (cache : Cache) (model_name : String)
    (validation_only : Bool) (hc : cacheGet cache model_name = none) :
    load_model_efficiently env cache model_name validation_only =
      load_body env cache model_name validation_only := by
  unfold load_model_efficiently
  rw [hc]

/-- An environment that performs a full successful disk-backed load of `m0`
at URL `"u"`, serving the body in chunks of 1 MiB, 1 MiB and 0.5 MiB. -/
def envDisk : Env :=
  ⟨"model_1.0.0.mlmodel", .ok (), fun _ _ => .ok (some ⟨true, some "u"⟩),
   fun _ => .error "no head", fun _ => .ok ⟨200, 2621440, [1048576, 1048576, 524288]⟩,
   true, false, fun _ => .ok m0, .ok "tmpfile", fun s => s, 7, 3⟩

/-- C3: after one successful non-validation-only load, the cache holds an
entry for the name whose handle is the returned handle, and every subsequent
non-validation-only call (under any environment) returns `success = True`
with `from_cache = True`, the cached handle, the unchanged cache, and the
zero trace — no storage-backend or network call at all. -/
theorem cache_hit_after_success_zero_calls (env : Env) (cache : Cache)
    (model_name : String)
    (h : (load_model_efficiently env cache model_name false).1.success = true) :
    ∃ e,
      cacheGet (load_model_efficiently env cache model_name false).2.1 model_name =
        some e ∧
      (load_model_efficiently env cache model_name false).1.model = some e.model ∧
      ∀ env' : Env,
        (load_model_efficiently env'
            (load_model_efficiently env cache model_name false).2.1 model_name
            false).1.success = true ∧
        (load_model_efficiently env'
            (load_model_efficiently env cache model_name false).2.1 model_name
            false).1.from_cache = true ∧
        (load_model_efficiently env'
            (load_model_efficiently env cache model_name false).2.1 model_name
            false).1.model = some e.model ∧
        (load_model_efficiently env'
            (load_model_efficiently env cache model_name false).2.1 model_name
            false).2.1 = (load_model_efficiently env cache model_name false).2.1 ∧
        (load_model_efficiently env'
            (load_model_efficiently env cache model_name false).2.1 model_name
            false).2.2 = Trace.zero := by
  cases hc : cacheGet cache model_name with
  | some e =>
    have hrun := load_cache_hit_run env cache model_name e hc
    refine ⟨e, ?_, ?_, ?_⟩
    · rw [hrun]; exact hc
    · rw [hrun]; rfl
    · intro env'
      rw [hrun]
      have hrun2 := load_cache_hit_run env' cache model_name e hc
      rw [hrun2]
      exact ⟨rfl, rfl, rfl, rfl, rfl⟩
  | none =>
    have hrun := load_cache_miss_run env cache model_name false hc
    rw [hrun] at h
    obtain ⟨m, hm, hcons⟩ := load_body_full_success env cache model_name h
    refine ⟨⟨m, modelMetadata m, env.now⟩, ?_, ?_, ?_⟩
    · rw [hrun, hcons]; simp [cacheGet]
    · rw [hrun]; exact hm
    · intro env'
      have hc2 : cacheGet (load_model_efficiently env cache model_name false).2.1
          model_name = some ⟨m, modelMetadata m, env.now⟩ := by
        rw [hrun, hcons]; simp [cacheGet]
      have hrun2 := load_cache_hit_run env'
        (load_model_efficiently env cache model_name false).2.1 model_name
        ⟨m, modelMetadata m, env.now⟩ hc2
      rw [hrun2]
      exact ⟨rfl, rfl, rfl, rfl, rfl⟩

/-- Witness for C3 at a concrete input: a successful disk-backed load of
`"m"` populates the cache, and the follow-up call is a zero-trace cache
hit. -/
theorem cache_hit_after_success_zero_calls_witness :
    ∃ e,
      cacheGet (load_model_efficiently envDisk [] "m" false).2.1 "m" = some e ∧
      (load_model_efficiently envDisk [] "m" false).1.model = some e.model ∧
      ∀ env' : Env,
        (load_model_efficiently env'
            (load_model_efficiently envDisk [] "m" false).2.1 "m"
            false).1.success = true ∧
        (load_model_efficiently env'
            (load_model_efficiently envDisk [] "m" false).2.1 "m"
            false).1.from_cache = true ∧
        (load_model_efficiently env'
            (load_model_efficiently envDisk [] "m" false).2.1 "m"
            false).1.model = some e.model ∧
        (load_model_efficiently env'
            (load_model_efficiently envDisk [] "m" false).2.1 "m"
            false).2.1 = (load_model_efficiently envDisk [] "m" false).2.1 ∧
        (load_model_efficiently env'
            (load_model_efficiently envDisk [] "m" false).2.1 "m"
            false).2.2 = Trace.zero :=
  cache_hit_after_success_zero_calls envDisk [] "m" (by rfl)

end MemEff

namespace MemEff

/-- One independent location attempt, as the spec describes it: the URL when
the storage-backend call for this folder succeeds with a truthy `success`
and a `download_url` key, and nothing when the call fails, raises, or returns
no URL. -/
def attemptFolder (env : Env) (model_name : String) (folder : Option String) :
    Option String :=
  match env.getModelStream model_name folder with
  | .error _ => none
  | .ok none => none
  | .ok (some si) =>
    if si.success && si.download_url.isSome then si.download_url else none

/-- C5: with the storage backend obtainable, `get_model_url` returns the
first-success composition of the default-folder attempt and the
`"base_model"`-folder attempt, in that order (so a failing or raising first
attempt does not abort the sequence), and it answers `none` only after both
locations have been called (two storage-backend calls). -/
theorem get_model_url_tries_folders_in_order (env : Env) (model_name : String)
    (h : env.getDropboxStorage = .ok ()) :
    (get_model_url env model_name).1 =
      (attemptFolder env model_name none).orElse
        (fun _ => attemptFolder env model_name (some "base_model")) ∧
    ((get_model_url env model_name).1 = none →
      (get_model_url env model_name).2 = 2) := by
  unfold get_model_url
  rw [h]
  cases h1 : env.getModelStream model_name none with
  | error e1 =>
    cases h2 : env.getModelStream model_name (some "base_model") with
    | error e2 => simp [try_folders, attemptFolder, h1, h2, Option.orElse]
    | ok v2 =>
      cases v2 with
      | none => simp [try_folders, attemptFolder, h1, h2, Option.orElse]
      | some si2 =>
        by_cases hsi2 : (si2.success && si2.download_url.isSome) = true
        · rcases Option.isSome_iff_exists.mp (Bool.and_elim_right hsi2) with ⟨y, hy⟩
          simp [try_folders, attemptFolder, h1, h2, hsi2, hy, Option.orElse,
                Bool.and_elim_left hsi2]
        · simp [try_folders, attemptFolder, h1, h2, hsi2, Option.orElse]
  | ok v1 =>
    cases v1 with
    | none =>
      cases h2 : env.getModelStream model_name (some "base_model") with
      | error e2 => simp [try_folders, attemptFolder, h1, h2, Option.orElse]
      | ok v2 =>
        cases v2 with
        | none => simp [try_folders, attemptFolder, h1, h2, Option.orElse]
        | some si2 =>
          by_cases hsi2 : (si2.success && si2.download_url.isSome) = true
          · rcases Option.isSome_iff_exists.mp (Bool.and_elim_right hsi2) with ⟨y, hy⟩
            simp [try_folders, attemptFolder, h1, h2, hsi2, hy, Option.orElse,
                Bool.and_elim_left hsi2]
          · simp [try_folders, attemptFolder, h1, h2, hsi2, Option.orElse]
    | some si1 =>
      by_cases hsi1 : (si1.success && si1.download_url.isSome) = true
      · rcases Option.isSome_iff_exists.mp (Bool.and_elim_right hsi1) with ⟨y, hy⟩
        simp [try_folders, attemptFolder, h1, hsi1, hy, Option.orElse,
              Bool.and_elim_left hsi1]
      · cases h2 : env.getModelStream model_name (some "base_model") with
        | error e2 => simp [try_folders, attemptFolder, h1, h2, hsi1, Option.orElse]
        | ok v2 =>
          cases v2 with
          | none => simp [try_folders, attemptFolder, h1, h2, hsi1, Option.orElse]
          | some si2 =>
            by_cases hsi2 : (si2.success && si2.download_url.isSome) = true
            · rcases Option.isSome_iff_exists.mp (Bool.and_elim_right hsi2) with ⟨y, hy⟩
              simp [try_folders, attemptFolder, h1, h2, hsi1, hsi2, hy, Option.orElse,
                    Bool.and_elim_left hsi2]
            · simp [try_folders, attemptFolder, h1, h2, hsi1, hsi2, Option.orElse]

/-- An environment whose default-folder attempt raises while the
`"base_model"` attempt succeeds with URL `"u2"`. -/
def envFallback : Env :=
  ⟨"model_1.0.0.mlmodel", .ok (),
   fun _ folder =>
     match folder with
     | none => .error "rate limited"
     | some _ => .ok (some ⟨true, some "u2"⟩),
   fun _ => .error "no head", fun _ => .error "no get", false, false,
   fun _ => .error "bad artifact", .error "no tempfile", fun s => s, 7, 3⟩

/-- Witness for C5 at a concrete input: the default folder raising does not
abort the sequence; the fallback folder's URL is returned. -/
theorem get_model_url_tries_folders_in_order_witness :
    (get_model_url envFallback "m").1 =
      (attemptFolder envFallback "m" none).orElse
        (fun _ => attemptFolder envFallback "m" (some "base_model")) ∧
    ((get_model_url envFallback "m").1 = none →
      (get_model_url envFallback "m").2 = 2) :=
  get_model_url_tries_folders_in_order envFallback "m" (by rfl)

end MemEff

namespace MemEff

/-- In disk mode the download phase deletes exactly as many temp files as it
creates, on every path. -/
theorem download_and_load_scratch_balance (env : Env) (model_name url : String)
    (hmode : env.memoryOnlyMode = false) :
    (download_and_load env model_name url).2.tempDeletes =
      (download_and_load env model_name url).2.tempCreates := by
  unfold download_and_load
  rw [hmode]
  split
  · rfl
  · rw [if_neg (by simp)]
    split
    · rfl
    · split
      · rfl
      · split
        · split
          · rfl
          · rfl
        · rfl

/-- The body deletes exactly as many temp files as it creates whenever the
memory-only flag is unset. -/
theorem load_body_scratch_balance (env : Env) (cache : Cache) (model_name : String)
    (validation_only : Bool) (hmode : env.memoryOnlyMode = false) :
    (load_body env cache model_name validation_only).2.2.tempDeletes =
      (load_body env cache model_name validation_only).2.2.tempCreates := by
  unfold load_body
  split
  · rfl
  · split
    · split
      · rfl
      · rfl
    · split
      · exact download_and_load_scratch_balance env model_name _ hmode
      · exact download_and_load_scratch_balance env model_name _ hmode
      · exact download_and_load_scratch_balance env model_name _ hmode

/-- C7: with disk-backed scratch storage (memory-only flag unset) the
temporary file is deleted on every exit path — the trace deletes exactly as
many temp files as it creates — and in particular, when the download
succeeds with HTTP 200 and deserialization then raises, exactly one temp
file is deleted and the result is `success = False` with no handle. -/
theorem disk_scratch_always_deleted (env : Env) (cache : Cache)
    (model_name : String) (hmode : env.memoryOnlyMode = false) :
    ((load_model_efficiently env cache model_name false).2.2.tempDeletes =
      (load_model_efficiently env cache model_name false).2.2.tempCreates) ∧
    (∀ url resp e p,
      cacheGet cache model_name = none →
      (get_model_url env model_name).1 = some url →
      env.coremlAvailable = true →
      env.tempfileCreate = .ok p →
      env.getReq url = .ok resp →
      resp.status_code = 200 →
      env.mlmodelLoad url = .error e →
      (load_model_efficiently env cache model_name false).2.2.tempDeletes = 1 ∧
      (load_model_efficiently env cache model_name false).2.2.tempCreates = 1 ∧
      (load_model_efficiently env cache model_name false).1.success = false ∧
      (load_model_efficiently env cache model_name false).1.model = none) := by
  constructor
  · unfold load_model_efficiently
    split
    · rw [if_neg (by simp)]; rfl
    · exact load_body_scratch_balance env cache model_name false hmode
  · intro url resp e p hc hu hcoreml htmp hget hstatus hml
    rw [load_cache_miss_run env cache model_name false hc]
    unfold load_body download_and_load
    simp [hu, hcoreml, hmode, htmp, hget, hstatus, hml, Trace.withStorage]

/-- An environment whose disk-backed download succeeds but whose
deserialization raises. -/
def envDiskBad : Env :=
  ⟨"model_1.0.0.mlmodel", .ok (), fun _ _ => .ok (some ⟨true, some "u"⟩),
   fun _ => .error "no head", fun _ => .ok ⟨200, 2621440, [1048576, 1048576, 524288]⟩,
   true, false, fun _ => .error "bad artifact", .ok "tmpfile", fun s => s, 7, 3⟩

/-- Witness for C7 at a concrete input: failed deserialization after a
successful disk-backed download deletes the scratch file exactly once and
fails with no handle. -/
theorem disk_scratch_always_deleted_witness :
    (load_model_efficiently envDiskBad [] "m" false).2.2.tempDeletes = 1 ∧
    (load_model_efficiently envDiskBad [] "m" false).2.2.tempCreates = 1 ∧
    (load_model_efficiently envDiskBad [] "m" false).1.success = false ∧
    (load_model_efficiently envDiskBad [] "m" false).1.model = none :=
  (disk_scratch_always_deleted envDiskBad [] "m" rfl).2 "u"
    ⟨200, 2621440, [1048576, 1048576, 524288]⟩ "bad artifact" "tmpfile"
    rfl rfl rfl rfl rfl rfl rfl

end MemEff

namespace MemEff

/-- Counterexample to C8 as stated: a full successful disk-backed load whose
transport serves chunks of 1 MiB, 1 MiB and 0.5 MiB keeps no cumulative byte
count at all (the `downloaded` counter exists only in the memory-only branch,
source lines 119-139; the disk branch at lines 155-164 streams the same
chunks without a counter). -/
theorem download_counter_every_load_counterexample :
    envDisk.memoryOnlyMode = false ∧
    envDisk.getReq "u" = .ok ⟨200, 2621440, [1048576, 1048576, 524288]⟩ ∧
    (load_model_efficiently envDisk [] "m" false).1.success = true ∧
    (load_model_efficiently envDisk [] "m" false).2.2.getCalls = 1 ∧
    (load_model_efficiently envDisk [] "m" false).2.2.downloaded = none := by
  exact ⟨rfl, rfl, rfl, rfl, rfl⟩

/-- An environment that performs a full successful memory-only load of `m0`
at URL `"u"`, serving the body in chunks of 1 MiB, 1 MiB and 0.5 MiB. -/
def envMem : Env :=
  ⟨"model_1.0.0.mlmodel", .ok (), fun _ _ => .ok (some ⟨true, some "u"⟩),
   fun _ => .error "no head", fun _ => .ok ⟨200, 2621440, [1048576, 1048576, 524288]⟩,
   true, true, fun _ => .ok m0, .error "no tempfile", fun s => s, 7, 3⟩

/-- C8 as amended: in memory-only mode a full load whose download answers
HTTP 200 tracks the cumulative byte count of the served chunks (each
non-empty chunk adds its length) before deserialization begins; with chunks
of 1 MiB, 1 MiB and 0.5 MiB the count is 2.5 MiB (2621440 bytes).  In disk
mode the same chunks are streamed to the scratch file but no cumulative
counter is kept. -/
theorem memory_mode_download_counter (env : Env) (cache : Cache)
    (model_name url : String) (resp : GetResp)
    (hc : cacheGet cache model_name = none)
    (hu : (get_model_url env model_name).1 = some url)
    (hcoreml : env.coremlAvailable = true)
    (hmode : env.memoryOnlyMode = true)
    (hget : env.getReq url = .ok resp)
    (hstatus : resp.status_code = 200) :
    (load_model_efficiently env cache model_name false).2.2.downloaded =
      some (downloadedBytes resp.chunks) ∧
    (resp.chunks = [1048576, 1048576, 524288] →
      (load_model_efficiently env cache model_name false).2.2.downloaded =
        some 2621440) := by
  have hrun : (load_model_efficiently env cache model_name false).2.2.downloaded =
      some (downloadedBytes resp.chunks) := by
    rw [load_cache_miss_run env cache model_name false hc]
    unfold load_body download_and_load
    cases hml : env.mlmodelLoad url with
    | error e =>
      simp [hu, hcoreml, hmode, hget, hstatus, hml, Trace.withStorage]
    | ok m =>
      simp [hu, hcoreml, hmode, hget, hstatus, hml, Trace.withStorage]
  refine ⟨hrun, fun hch => ?_⟩
  rw [hrun, hch]
  simp [downloadedBytes]

/-- Witness for C8 (amended) at a concrete input: the memory-only load over
chunks of 1 MiB, 1 MiB and 0.5 MiB reports a cumulative count of 2621440
bytes. -/
theorem memory_mode_download_counter_witness :
    (load_model_efficiently envMem [] "m" false).2.2.downloaded = some 2621440 :=
  (memory_mode_download_counter envMem [] "m" "u"
    ⟨200, 2621440, [1048576, 1048576, 524288]⟩ rfl rfl rfl rfl rfl rfl).2 rfl

/-- C9: when the load succeeds and the handle's prediction output is the map
holding only intent `"greeting"` (no probabilities key), `predict_intent`
returns success with intent `"greeting"`, an empty probabilities map, and no
errors. -/
theorem predict_intent_greeting_empty_probs (env : Env) (cache : Cache)
    (text : String) (model_name : Option String) (m : Model)
    (hs : (load_model_efficiently env cache (model_name.getD env.base_model_name)
        false).1.success = true)
    (hm : (load_model_efficiently env cache (model_name.getD env.base_model_name)
        false).1.model = some m)
    (hp : m.hasPredict = true)
    (hpred : m.predict (env.preprocess text) = .ok (.pdict (some "greeting") none)) :
    (predict_intent env cache text model_name).1 = ⟨true, some "greeting", [], []⟩ := by
  unfold predict_intent
  simp [hs, hm, hp, hpred, extractProbs]

/-- Witness for C9 at a concrete input: a cached handle answering
`intent = "greeting"` without probabilities yields the normalized successful
result. -/
theorem predict_intent_greeting_empty_probs_witness :
    (predict_intent envFail [("model_1.0.0.mlmodel", entry0)] "Hello"
      none).1 = ⟨true, some "greeting", [], []⟩ :=
  predict_intent_greeting_empty_probs envFail [("model_1.0.0.mlmodel", entry0)]
    "Hello" none m0 (by rfl) (by rfl) (by rfl) (by rfl)

/-- C10: when the load succeeds and the handle's prediction output is a map
without an `'intent'` key or not a map at all, `predict_intent` declares
failure with no intent and an empty error list — a silent failure. -/
theorem predict_missing_intent_silent_failure (env : Env) (cache : Cache)
    (text : String) (model_name : Option String) (m : Model) (pred : Prediction)
    (hs : (load_model_efficiently env cache (model_name.getD env.base_model_name)
        false).1.success = true)
    (hm : (load_model_efficiently env cache (model_name.getD env.base_model_name)
        false).1.model = some m)
    (hp : m.hasPredict = true)
    (hpred : m.predict (env.preprocess text) = .ok pred)
    (hi : pred.intentVal = none) :
    (predict_intent env cache text model_name).1.success = false ∧
    (predict_intent env cache text model_name).1.errors = [] ∧
    (predict_intent env cache text model_name).1.intent = none := by
  cases pred with
  | notDict =>
    unfold predict_intent
    simp [hs, hm, hp, hpred]
  | pdict i probs =>
    cases i with
    | none =>
      unfold predict_intent
      simp [hs, hm, hp, hpred]
    | some s => simp [Prediction.intentVal] at hi

/-- A concrete model handle whose prediction output is not a dict. -/
def m1 : Model := ⟨none, none, none, true, fun _ => .ok .notDict, none⟩

/-- A concrete cache entry holding `m1`. -/
def entry1 : CacheEntry := ⟨m1, .empty, 0⟩

/-- Witness for C10 at a concrete input: a cached handle whose prediction is
not a dict yields a failed result carrying no error message. -/
theorem predict_missing_intent_silent_failure_witness :
    (predict_intent envFail [("model_1.0.0.mlmodel", entry1)] "x"
      none).1.success = false ∧
    (predict_intent envFail [("model_1.0.0.mlmodel", entry1)] "x"
      none).1.errors = [] ∧
    (predict_intent envFail [("model_1.0.0.mlmodel", entry1)] "x"
      none).1.intent = none :=
  predict_missing_intent_silent_failure envFail [("model_1.0.0.mlmodel", entry1)]
    "x" none m1 .notDict (by rfl) (by rfl) (by rfl) (by rfl) (by rfl)

end MemEff
